import Mathlib

/-!
Verification of the fly-tipping impact API (src/backend_api).

Shallow embedding conventions:
- Python `str` values that the control flow inspects character by character
  (postcodes, classifier output) are modeled as `List Char`; display-only
  strings stay `String`.  `str.strip` / `str.upper` / `str.lower` are modeled
  with `Char.isWhitespace` / `Char.toUpper` / `Char.toLower` (ASCII scope,
  which covers every key and label in the program).
- Python floats are modeled as `ℚ`; `round(x, n)` (banker's rounding) is
  modeled exactly by `roundHalfEven`.
- Each external service call (Gemini classifiers, summary LLM, council
  lookup, Supabase upload) is an oracle argument of type `Except`:
  `.error e` models the call raising an exception, `.ok t` models it
  returning the payload `t`.  The code around the call is translated
  faithfully from the source.
- The module-level dict `task_results` is modeled by an explicit sequence of
  record writes (`processWrites`); `fineTrace` lists the store state after
  every single write, and `observableStates` lists the states at points where
  another coroutine can actually run (the body of
  `process_flytipping_analysis` contains no `await`, and every function it
  calls is synchronous, so a reader request can only observe the store before
  the background task runs or after it finished).
-/

namespace FlyTip

/-- Model of Python `str.strip()` on a list of characters. -/
def pyStrip (l : List Char) : List Char :=
  ((l.dropWhile Char.isWhitespace).reverse.dropWhile Char.isWhitespace).reverse

/-- Model of Python `str.lower()` (ASCII scope). -/
def pyLower (l : List Char) : List Char := l.map Char.toLower

/-- Model of Python `str.replace(pat, rep)`: scan left to right, replace each
non-overlapping occurrence of `pat`, never rescanning the replacement. -/
def replaceAll (pat rep : List Char) : List Char → List Char
  | [] => []
  | c :: cs =>
    if h : pat ≠ [] ∧ pat.isPrefixOf (c :: cs) then
      rep ++ replaceAll pat rep (List.drop pat.length (c :: cs))
    else
      c :: replaceAll pat rep cs
termination_by l => l.length
decreasing_by
  · simp only [List.length_drop, List.length_cons]
    have hp : 0 < pat.length := List.length_pos.mpr h.1
    omega
  · simp

/-- Model of the Python substring test `pat in s`. -/
def containsSeq (pat : List Char) : List Char → Bool
  | [] => pat.isEmpty
  | c :: cs => pat.isPrefixOf (c :: cs) || containsSeq pat cs

/-!
## fast_api_server.py : postcode resolution

`POSTCODE_TO_COUNTY` is a Python dict literal.  The literal repeats the keys
"NE", "LE" and "PO"; Python dict-literal semantics keep the position of the
first occurrence of a duplicated key and the value of the last occurrence.
The association list below is the resulting dict, in iteration order.
-/

def POSTCODE_TO_COUNTY : List (List Char × String) :=
  [(("SW").toList, "Greater London"),
   (("SE").toList, "Greater London"),
   (("E").toList, "Greater London"),
   (("W").toList, "Greater London"),
   (("N").toList, "Greater London"),
   (("NW").toList, "Greater London"),
   (("EC").toList, "Greater London"),
   (("WC").toList, "Greater London"),
   (("M").toList, "Greater Manchester"),
   (("B").toList, "West Midlands"),
   (("LS").toList, "West Yorkshire"),
   (("L").toList, "Merseyside"),
   (("S").toList, "South Yorkshire"),
   (("NE").toList, "Northumberland"),
   (("BL").toList, "Lancashire"),
   (("ME").toList, "Kent"),
   (("CM").toList, "Essex"),
   (("SO").toList, "Hampshire"),
   (("GU").toList, "Surrey"),
   (("WD").toList, "Hertfordshire"),
   (("RG").toList, "Berkshire"),
   (("HP").toList, "Buckinghamshire"),
   (("OX").toList, "Oxfordshire"),
   (("GL").toList, "Gloucestershire"),
   (("SN").toList, "Wiltshire"),
   (("BA").toList, "Somerset"),
   (("EX").toList, "Devon"),
   (("TR").toList, "Cornwall"),
   (("BH").toList, "Dorset"),
   (("BN").toList, "East Sussex"),
   (("PO").toList, "Isle of Wight"),
   (("NR").toList, "Norfolk"),
   (("IP").toList, "Suffolk"),
   (("CB").toList, "Cambridgeshire"),
   (("LU").toList, "Bedfordshire"),
   (("NN").toList, "Northamptonshire"),
   (("LE").toList, "Rutland"),
   (("NG").toList, "Nottinghamshire"),
   (("DE").toList, "Derbyshire"),
   (("ST").toList, "Staffordshire"),
   (("SY").toList, "Shropshire"),
   (("HR").toList, "Herefordshire"),
   (("WR").toList, "Worcestershire"),
   (("CV").toList, "Warwickshire"),
   (("CH").toList, "Cheshire"),
   (("CA").toList, "Cumbria"),
   (("DH").toList, "Durham"),
   (("YO").toList, "North Yorkshire"),
   (("HU").toList, "East Riding of Yorkshire"),
   (("LN").toList, "Lincolnshire")]

/-- The fixed region set: the values of `POSTCODE_TO_COUNTY`. -/
def REGIONS : List String := POSTCODE_TO_COUNTY.map Prod.snd

/-- Ordering used by `sorted(POSTCODE_TO_COUNTY.keys(), key=len, reverse=True)`:
descending key length (stable). -/
def lenGe (a b : List Char × String) : Prop := b.1.length ≤ a.1.length

instance : DecidableRel lenGe := fun a b => Nat.decLe b.1.length a.1.length

instance : IsTotal (List Char × String) lenGe :=
  ⟨fun a b => Nat.le_total b.1.length a.1.length⟩

instance : IsTrans (List Char × String) lenGe :=
  ⟨fun _ _ _ h₁ h₂ => Nat.le_trans h₂ h₁⟩

/-- The dict entries in the order the loop in `get_county_from_postcode`
visits the keys: stable sort by descending key length (Python `sorted` with
`key=len, reverse=True`). -/
def SORTED_ENTRIES : List (List Char × String) :=
  List.insertionSort lenGe POSTCODE_TO_COUNTY

/-- `postcode.strip().upper()` followed by `split()[0]` (the whole stripped
string when there is no whitespace; the empty string when the stripped string
is empty — in Python `parts` is then empty and `outward` falls back to the
stripped string itself, which equals this `takeWhile`). -/
def outwardOf (postcode : List Char) : List Char :=
  ((pyStrip postcode).map Char.toUpper).takeWhile (fun c => !c.isWhitespace)

/-- `re.match(r"^([A-Z]+)", outward)`: the maximal leading run of ASCII
capital letters of the outward code. -/
def areaOf (postcode : List Char) : List Char :=
  (outwardOf postcode).takeWhile Char.isUpper

/-- `get_county_from_postcode` (fast_api_server.py, lines 143-162).
The Python loop iterates over the length-sorted keys and returns
`POSTCODE_TO_COUNTY[key]` for the first key such that
`outward.startswith(key) or area_letters.startswith(key)`; iterating over the
entries and returning the entry value is equivalent because the dict keys are
unique. -/
def get_county_from_postcode (postcode : List Char) : String :=
  if postcode = [] then "Greater London"
  else
    match SORTED_ENTRIES.find?
        (fun e => e.1.isPrefixOf (outwardOf postcode) ||
                  e.1.isPrefixOf (areaOf postcode)) with
    | some e => e.2
    | none => "Greater London"

/-!
## Numeric model: Python floats as ℚ, `round(x, n)` as round-half-to-even
-/

/-- Python `round()` to an integer: round half to even. -/
def roundHalfEven (q : ℚ) : ℤ :=
  if q - ⌊q⌋ < 1/2 then ⌊q⌋
  else if 1/2 < q - ⌊q⌋ then ⌊q⌋ + 1
  else if ⌊q⌋ % 2 = 0 then ⌊q⌋ else ⌊q⌋ + 1

/-- Python `round(x, 1)`. -/
def round1 (q : ℚ) : ℚ := (roundHalfEven (q * 10) : ℚ) / 10

/-- Python `round(x, 2)`. -/
def round2 (q : ℚ) : ℚ := (roundHalfEven (q * 100) : ℚ) / 100

/-- Python `int()` on a float: truncation toward zero. -/
def pyInt (q : ℚ) : ℤ := if q < 0 then -⌊-q⌋ else ⌊q⌋

/-- Fixed-point rendering used by the f-string format `:.1f`. -/
def fmt1 (q : ℚ) : String :=
  let n : ℤ := roundHalfEven (q * 10)
  (if n < 0 then "-" else "") ++ toString (n.natAbs / 10) ++ "." ++
    toString (n.natAbs % 10)

/-!
## External-stage oracles

Every external call is modeled by an `Except` value supplied as input:
`.error e` = the call raised, `.ok t` = the call returned `t`.
-/

/-- `WASTE_SIZE_MULTIPLIERS` (fast_api_server.py, lines 98-103). -/
def WASTE_SIZE_MULTIPLIERS : List (String × ℚ) :=
  [("small_bag", 1), ("medium_bag", 5/2), ("large_bag", 5), ("van", 15)]

/-- The closed label set of classify_waste_bag_size.py. -/
def VALID_SIZES : List String := ["small_bag", "medium_bag", "large_bag", "van"]

/-- `classify_waste_size_with_gemini` (classify_waste_bag_size.py).
`o` is the Gemini call: `.ok t` models `response.text`, `.error` models any
raised exception (missing key, API failure).  The function strips and
lower-cases the response, accepts an exact member of the label set, otherwise
takes the first label that is a substring of the response, otherwise returns
the default "medium_bag"; every raised exception also yields "medium_bag". -/
def classify_waste_size_with_gemini (o : Except String String) : String :=
  match o with
  | .error _ => "medium_bag"
  | .ok t =>
    let c : List Char := pyLower (pyStrip t.toList)
    if String.mk c ∈ VALID_SIZES then String.mk c
    else
      match VALID_SIZES.find? (fun s => containsSeq s.toList c) with
      | some s => s
      | none => "medium_bag"

/-- The closed label set of get_waste_type.py. -/
def VALID_WASTE_TYPES : List String :=
  ["household", "construction", "garden", "hazardous", "furniture", "electrical"]

/-- `get_waste_type` (get_waste_type.py): same recovery structure as the size
classifier, with default label "household". -/
def get_waste_type (o : Except String String) : String :=
  match o with
  | .error _ => "household"
  | .ok t =>
    let c : List Char := pyLower (pyStrip t.toList)
    if String.mk c ∈ VALID_WASTE_TYPES then String.mk c
    else
      match VALID_WASTE_TYPES.find? (fun s => containsSeq s.toList c) with
      | some s => s
      | none => "household"

/-- `generate_summary` (generate_summary.py).  On success the response text is
stripped and the markdown markers removed; on any raised exception the
deterministic fallback paragraph is built from the already-known metrics. -/
def generate_summary (o : Except String String) (county waste_size : String)
    (crime_change house_price_impact co2_emissions : ℚ) (waste_type : String) :
    String :=
  match o with
  | .ok t =>
    String.mk (replaceAll (("*").toList) []
      (replaceAll (("**").toList) [] (pyStrip t.toList)))
  | .error _ =>
    "This " ++ waste_type ++ " fly-tipping incident in " ++ county ++
    " directly impacts your quality of life. It contributes to a " ++
    fmt1 (abs house_price_impact) ++
    "% reduction in local property values, releases " ++
    fmt1 co2_emissions ++
    "kg of CO2 into your air, and is associated with a " ++
    fmt1 crime_change ++
    "% increase in local crime rates. Every unreported incident makes " ++
    "your neighborhood less safe and less valuable. By reporting this, " ++
    "you\x27re taking the first step toward breaking the cycle and " ++
    "reclaiming your community\x27s future."

/-- `CouncilReportingInfo` (council_url.py). -/
structure CouncilReportingInfo where
  url : String
  contact_number : String
  council_website : String
  confidence : String

/-- `_get_fallback_result` (council_url.py). -/
def get_fallback_result (council_name : String) : CouncilReportingInfo :=
  let slug : String :=
    String.mk (replaceAll ((" ").toList) []
      (replaceAll ((" council").toList) [] (pyLower council_name.toList)))
  { url := "https://www." ++ slug ++ ".gov.uk/report-fly-tipping"
    contact_number := "0300 123 4567"
    council_website := "https://www." ++ slug ++ ".gov.uk"
    confidence := "low" }

/-- `find_council_reporting_page` (council_url.py).  The oracle `.ok info`
models a successful Gemini call whose JSON response parsed into `info` (with
the `setdefault` defaults applied); `.error` models a raised exception or a
JSON parse failure.  A parsed response with an empty url raises ValueError
inside the try block, which is caught and also yields the fallback. -/
def find_council_reporting_page (o : Except String CouncilReportingInfo)
    (council_name : String) : CouncilReportingInfo :=
  match o with
  | .ok info => if info.url = "" then get_fallback_result council_name else info
  | .error _ => get_fallback_result council_name

/-- `upload_image_to_supabase` (supabase_integration.py).  The except block
logs and re-raises, so the oracle outcome is propagated unchanged: a failed
upload remains a raised exception for the caller. -/
def upload_image_to_supabase (o : Except String String) : Except String String :=
  match o with
  | .ok url => .ok url
  | .error e => .error e

/-!
## fast_api_server.py : impact calculation
-/

/-- One row of the county metrics table loaded by `load_county_data`
(only the columns `calculate_impact` reads). -/
structure CountyRow where
  county : String
  air_quality_impact : ℚ
  co2_emission_kg : ℚ
  quality_of_life_impact : ℚ

/-- Lines 168-180 of fast_api_server.py: take the first row whose `county`
column matches, and fall back to the column means (`county_data.mean`) when
no row matches.  (`load_county_data` raises when the table is empty, so a
loaded table is nonempty; on the empty table this model returns 0 where
pandas would produce NaN.) -/
def countyCoeffs (county_data : List CountyRow) (county : String) : ℚ × ℚ × ℚ :=
  match county_data.find? (fun r => r.county == county) with
  | some row =>
    (row.air_quality_impact, row.co2_emission_kg, row.quality_of_life_impact)
  | none =>
    ((county_data.map (fun r => r.air_quality_impact)).sum / county_data.length,
     (county_data.map (fun r => r.co2_emission_kg)).sum / county_data.length,
     (county_data.map (fun r => r.quality_of_life_impact)).sum /
       county_data.length)

/-- `EnvironmentalImpact` (pydantic model). -/
structure EnvironmentalImpact where
  co2Emissions : ℚ
  wasteVolume : ℚ
  recyclingRate : ℚ

/-- `CouncilInfo` (pydantic model). -/
structure CouncilInfo where
  name : String
  reportingUrl : String
  contactNumber : String
  recommendations : List String

/-- `FlytippingImpactResponse` (pydantic model). -/
structure FlytippingImpactResponse where
  crimeChange : ℚ
  deprivationIndex : ℚ
  housePriceImpact : ℚ
  environmentalImpact : EnvironmentalImpact
  councilInfo : CouncilInfo
  summary : Option String
  imageUrl : Option String

/-- The outcomes of the five external calls a single pipeline run makes. -/
structure StageOracles where
  classify : Except String String
  wasteType : Except String String
  summary : Except String String
  council : Except String CouncilReportingInfo
  upload : Except String String

/-- The response `calculate_impact` assembles on its success path
(fast_api_server.py, lines 185-238), given the multiplier obtained from the
`WASTE_SIZE_MULTIPLIERS[waste_size]` lookup and the URL returned by the image
upload.  All the intermediate values are pure, so factoring them into this
builder preserves the source semantics exactly. -/
def impactResponse (county_data : List CountyRow) (county : String)
    (waste_size : String) (multiplier : ℚ) (image_url : String)
    (o : StageOracles) : FlytippingImpactResponse :=
  let coeffs := countyCoeffs county_data county
  let co2_base := coeffs.2.1
  let qol_impact := coeffs.2.2
  let co2_emissions := co2_base * multiplier
  let waste_volume_tonnes := (1/20 : ℚ) * multiplier
  let crime_change := qol_impact * 15 * multiplier
  let house_price_impact := -qol_impact * (9/2) * multiplier
  let deprivation_index := min 10 (5 + qol_impact * 3)
  let recycling_rate := max 10 (65 - qol_impact * 50)
  let waste_type := get_waste_type o.wasteType
  let summary := generate_summary o.summary county waste_size crime_change
    house_price_impact co2_emissions waste_type
  let council_recommendations : List String :=
    ["Report fly-tipping incidents immediately via the council website",
     "Use licensed waste carriers - check the Environment Agency register",
     "Take bulky waste to your local household recycling centre",
     "Consider using the council\x27s bulky waste collection service",
     "Fly-tipping costs your council £" ++ toString (pyInt (multiplier * 200))
       ++ " to clear - help us reduce this burden"]
  let council_url_llm := find_council_reporting_page o.council county
  { crimeChange := round1 crime_change
    deprivationIndex := round1 deprivation_index
    housePriceImpact := round1 house_price_impact
    environmentalImpact :=
      { co2Emissions := round1 co2_emissions
        wasteVolume := round2 waste_volume_tonnes
        recyclingRate := round1 recycling_rate }
    councilInfo :=
      { name := county ++ " Council"
        reportingUrl := council_url_llm.council_website
        contactNumber := council_url_llm.contact_number
        recommendations := council_recommendations }
    summary := some summary
    imageUrl := some image_url }

/-- `calculate_impact` (fast_api_server.py, lines 165-238).  Returns
`.error` exactly when the Python function raises: a `KeyError` at the
`WASTE_SIZE_MULTIPLIERS[waste_size]` lookup for an unknown size (line 183,
reached before any of the external calls of this function), or the exception
propagated out of `upload_image_to_supabase` (line 208). -/
def calculate_impact (county_data : List CountyRow) (county : String)
    (waste_size : String) (o : StageOracles) :
    Except String FlytippingImpactResponse :=
  match WASTE_SIZE_MULTIPLIERS.lookup waste_size with
  | none => .error ("KeyError: " ++ waste_size)
  | some multiplier =>
    match upload_image_to_supabase o.upload with
    | .error e => .error e
    | .ok image_url =>
      .ok (impactResponse county_data county waste_size multiplier image_url o)

/-!
## fast_api_server.py : task lifecycle
-/

/-- The status strings written into `task_results`. -/
inductive TaskStatus where
  | pending
  | processing
  | completed
  | failed
deriving DecidableEq

/-- One entry of the module-level `task_results` dict (the fields the
lifecycle touches). -/
structure TaskRecord where
  status : TaskStatus
  result : Option FlytippingImpactResponse
  error : Option String
  metadata : Option (String × String)

/-- The record created by `submit_flytipping_report` (lines 287-291). -/
def initRecord : TaskRecord :=
  { status := .pending, result := none, error := none, metadata := none }

def setStatus (s : TaskStatus) (r : TaskRecord) : TaskRecord := { r with status := s }

def setResult (res : FlytippingImpactResponse) (r : TaskRecord) : TaskRecord :=
  { r with result := some res }

def setError (e : String) (r : TaskRecord) : TaskRecord := { r with error := some e }

def setMetadata (m : String × String) (r : TaskRecord) : TaskRecord :=
  { r with metadata := some m }

/-- Steps 1-3 of `process_flytipping_analysis`: resolve the county, classify
the waste size, compute the impact.  An `.error` models the only way the try
block can raise. -/
def runPipelineResult (county_data : List CountyRow) (o : StageOracles)
    (postcode : List Char) :
    Except String (FlytippingImpactResponse × String × String) :=
  let county := get_county_from_postcode postcode
  let waste_size := classify_waste_size_with_gemini o.classify
  match calculate_impact county_data county waste_size o with
  | .ok res => .ok (res, county, waste_size)
  | .error e => .error e

/-- The sequence of writes `process_flytipping_analysis` performs on its
task record: status := processing, then on success status := completed,
result, metadata (lines 245, 257-263), or on a raised exception
status := failed, error (lines 266-267). -/
def processWrites (county_data : List CountyRow) (o : StageOracles)
    (postcode : List Char) : List (TaskRecord → TaskRecord) :=
  setStatus .processing ::
    match runPipelineResult county_data o postcode with
    | .ok (res, county, ws) =>
      [setStatus .completed, setResult res, setMetadata (county, ws)]
    | .error e => [setStatus .failed, setError e]

/-- The store state after each successive write. -/
def stateTrace (init : TaskRecord) : List (TaskRecord → TaskRecord) → List TaskRecord
  | [] => [init]
  | w :: ws => init :: stateTrace (w init) ws

/-- All intermediate states of one task record over its lifetime. -/
def fineTrace (county_data : List CountyRow) (o : StageOracles)
    (postcode : List Char) : List TaskRecord :=
  stateTrace initRecord (processWrites county_data o postcode)

/-- The record once the background task has finished. -/
def finalRecord (county_data : List CountyRow) (o : StageOracles)
    (postcode : List Char) : TaskRecord :=
  (processWrites county_data o postcode).foldl (fun r w => w r) initRecord

/-- The states a reader request can observe.  The body of
`process_flytipping_analysis` contains no `await` and only calls synchronous
functions, so under cooperative asyncio scheduling a `GET /api/result`
handler runs either before the background task starts (seeing the record
created at submission) or after it finished. -/
def observableStates (county_data : List CountyRow) (o : StageOracles)
    (postcode : List Char) : List TaskRecord :=
  [initRecord, finalRecord county_data o postcode]

/-- Rank of a status in the lifecycle order pending → processing → terminal. -/
def statusRank : TaskStatus → ℕ
  | .pending => 0
  | .processing => 1
  | .completed => 2
  | .failed => 2

/-!
## Concrete fixtures used by witnesses and counterexamples
-/

/-- A one-row coefficient table for the default region. -/
def T_LONDON : List CountyRow := [⟨"Greater London", 1, 50, 1/2⟩]

/-- The coefficient table of the §8 scenario: `qualityOfLifeImpact = 0.4`. -/
def T_SCN : List CountyRow := [⟨"Devon", 1, 10, 2/5⟩]

/-- A coefficient table with a negative quality-of-life coefficient. -/
def T_NEG : List CountyRow := [⟨"Testshire", 0, 100, -2⟩]

/-- Every external stage raises. -/
def ALL_FAIL : StageOracles :=
  { classify := .error "service down"
    wasteType := .error "service down"
    summary := .error "service down"
    council := .error "service down"
    upload := .error "upload down" }

/-- Every external stage succeeds. -/
def OK_ORACLES : StageOracles :=
  { classify := .ok "small_bag"
    wasteType := .ok "household"
    summary := .ok "All fine."
    council := .ok ⟨"https://x.gov.uk/report", "01234 567890", "https://x.gov.uk", "high"⟩
    upload := .ok "https://img.example/1.jpg" }

/-- A second successful environment with different stage payloads. -/
def OK_ORACLES2 : StageOracles :=
  { classify := .ok "van"
    wasteType := .ok "garden"
    summary := .ok "Another summary."
    council := .ok ⟨"https://y.gov.uk/report", "09876 543210", "https://y.gov.uk", "low"⟩
    upload := .ok "https://img.example/2.jpg" }

/-- Every stage raises except the image upload. -/
def ALL_FAIL_BUT_UPLOAD : StageOracles :=
  { ALL_FAIL with upload := .ok "https://img.example/up.jpg" }

/-- The postcode of the §8 scenario. -/
def PC_SW : List Char := ("SW1A 1AA").toList

/-- Placeholder used only to extract the payload of a known-successful
`calculate_impact` call. -/
def FALLBACK_RESP : FlytippingImpactResponse :=
  { crimeChange := 0
    deprivationIndex := 0
    housePriceImpact := 0
    environmentalImpact := { co2Emissions := 0, wasteVolume := 0, recyclingRate := 0 }
    councilInfo := { name := "", reportingUrl := "", contactNumber := "", recommendations := [] }
    summary := none
    imageUrl := none }

/-- The payload of a `calculate_impact` call, when it succeeds. -/
def respOf (county_data : List CountyRow) (county waste_size : String)
    (o : StageOracles) : FlytippingImpactResponse :=
  ((calculate_impact county_data county waste_size o).toOption).getD FALLBACK_RESP

end FlyTip

namespace FlyTip

/-!
## Helper lemmas
-/

theorem roundHalfEven_le {q : ℚ} {n : ℤ} (h : q ≤ (n : ℚ)) : roundHalfEven q ≤ n := by
  have hf : ⌊q⌋ ≤ n := by
    have := Int.floor_mono h
    rwa [Int.floor_intCast] at this
  unfold roundHalfEven
  split_ifs with h1 h2 h3
  · exact hf
  · have hlt : ⌊q⌋ < n := by
      have hq : (⌊q⌋ : ℚ) + 1/2 ≤ q := by
        have := not_lt.mp h1
        linarith
      have : (⌊q⌋ : ℚ) < (n : ℚ) := by linarith
      exact_mod_cast this
    omega
  · exact hf
  · have hlt : ⌊q⌋ < n := by
      have hq : (⌊q⌋ : ℚ) + 1/2 ≤ q := by
        have := not_lt.mp h1
        linarith
      have : (⌊q⌋ : ℚ) < (n : ℚ) := by linarith
      exact_mod_cast this
    omega

theorem le_roundHalfEven {q : ℚ} {n : ℤ} (h : (n : ℚ) ≤ q) : n ≤ roundHalfEven q := by
  have hf : n ≤ ⌊q⌋ := Int.le_floor.mpr h
  unfold roundHalfEven
  split_ifs <;> omega

theorem roundHalfEven_intCast (n : ℤ) : roundHalfEven ((n : ℚ)) = n := by
  unfold roundHalfEven
  rw [Int.floor_intCast]
  norm_num

theorem round1_eq_of_mul_ten {q : ℚ} {n : ℤ} (h : q * 10 = (n : ℚ)) :
    round1 q = (n : ℚ) / 10 := by
  rw [round1, h, roundHalfEven_intCast]

theorem round2_eq_of_mul_hundred {q : ℚ} {n : ℤ} (h : q * 100 = (n : ℚ)) :
    round2 q = (n : ℚ) / 100 := by
  rw [round2, h, roundHalfEven_intCast]

theorem round1_le_intCast {q : ℚ} {n : ℤ} (h : q ≤ (n : ℚ)) : round1 q ≤ (n : ℚ) := by
  unfold round1
  have h10 : q * 10 ≤ ((10 * n : ℤ) : ℚ) := by push_cast; linarith
  have hh := roundHalfEven_le h10
  have hc : ((roundHalfEven (q * 10)) : ℚ) ≤ ((10 * n : ℤ) : ℚ) := by exact_mod_cast hh
  push_cast at hc
  linarith

theorem intCast_le_round1 {q : ℚ} {n : ℤ} (h : (n : ℚ) ≤ q) : (n : ℚ) ≤ round1 q := by
  unfold round1
  have h10 : ((10 * n : ℤ) : ℚ) ≤ q * 10 := by push_cast; linarith
  have hh := le_roundHalfEven h10
  have hc : ((10 * n : ℤ) : ℚ) ≤ ((roundHalfEven (q * 10)) : ℚ) := by exact_mod_cast hh
  push_cast at hc
  linarith

theorem classify_mem (o : Except String String) :
    classify_waste_size_with_gemini o ∈ VALID_SIZES := by
  cases o with
  | error e => simp only [classify_waste_size_with_gemini]; decide
  | ok t =>
    simp only [classify_waste_size_with_gemini]
    by_cases hmem : String.mk (pyLower (pyStrip t.toList)) ∈ VALID_SIZES
    · rw [if_pos hmem]; exact hmem
    · rw [if_neg hmem]
      cases hfind : VALID_SIZES.find?
          (fun s => containsSeq s.toList (pyLower (pyStrip t.toList))) with
      | some s => exact List.mem_of_find?_eq_some hfind
      | none => decide

theorem lookup_some_of_mem_sizes {ws : String} (h : ws ∈ VALID_SIZES) :
    (WASTE_SIZE_MULTIPLIERS.lookup ws).isSome := by
  fin_cases h <;> decide

theorem lookup_none_of_not_mem {ws : String}
    (h : ws ∉ WASTE_SIZE_MULTIPLIERS.map Prod.fst) :
    WASTE_SIZE_MULTIPLIERS.lookup ws = none := by
  rw [ List.lookup_eq_none_iff]
  intro p hp
  have hne : ws ≠ p.1 := fun he => h (he ▸ List.mem_map_of_mem Prod.fst hp)
  exact bne_iff_ne.mpr hne

theorem calculate_impact_keyError {cd : List CountyRow} {county ws : String}
    {o : StageOracles} (hl : WASTE_SIZE_MULTIPLIERS.lookup ws = none) :
    calculate_impact cd county ws o = .error ("KeyError: " ++ ws) := by
  unfold calculate_impact
  rw [hl]

theorem calculate_impact_ok {cd : List CountyRow} {county ws : String}
    {o : StageOracles} {m : ℚ} {url : String}
    (hl : WASTE_SIZE_MULTIPLIERS.lookup ws = some m) (hu : o.upload = .ok url) :
    calculate_impact cd county ws o = .ok (impactResponse cd county ws m url o) := by
  unfold calculate_impact upload_image_to_supabase
  rw [hl, hu]

theorem calculate_impact_upload_error {cd : List CountyRow} {county ws : String}
    {o : StageOracles} {m : ℚ} {e : String}
    (hl : WASTE_SIZE_MULTIPLIERS.lookup ws = some m) (hu : o.upload = .error e) :
    calculate_impact cd county ws o = .error e := by
  unfold calculate_impact upload_image_to_supabase
  rw [hl, hu]

theorem calculate_impact_ok_inv {cd : List CountyRow} {county ws : String}
    {o : StageOracles} {r : FlytippingImpactResponse}
    (h : calculate_impact cd county ws o = .ok r) :
    ∃ m url, WASTE_SIZE_MULTIPLIERS.lookup ws = some m ∧ o.upload = .ok url ∧
      r = impactResponse cd county ws m url o := by
  unfold calculate_impact upload_image_to_supabase at h
  cases hl : WASTE_SIZE_MULTIPLIERS.lookup ws with
  | none => rw [hl] at h; exact absurd h (by simp)
  | some m =>
    rw [hl] at h
    cases hu : o.upload with
    | error e => rw [hu] at h; exact absurd h (by simp)
    | ok url =>
      rw [hu] at h
      exact ⟨m, url, rfl, rfl, (Except.ok.injEq _ _ ▸ h).symm⟩

theorem prefix_cond_iff {k out ar : List Char} (har : ar <+: out) :
    (k.isPrefixOf out || k.isPrefixOf ar) = true ↔ k <+: out := by
  simp only [Bool.or_eq_true, List.isPrefixOf_iff_prefix]
  constructor
  · rintro (h | h)
    · exact h
    · exact h.trans har
  · exact fun h => Or.inl h

theorem find?_longest {out ar : List Char} (har : ar <+: out)
    (L : List (List Char × String)) (e : List Char × String) :
    L.Pairwise lenGe → (L.map Prod.fst).Nodup → e ∈ L → e.1 <+: out →
    (∀ e₂ ∈ L, e₂.1 <+: out → e₂.1.length ≤ e.1.length) →
    L.find? (fun x => x.1.isPrefixOf out || x.1.isPrefixOf ar) = some e := by
  induction L with
  | nil => intro _ _ he _ _; cases he
  | cons x xs ih =>
    intro hs hnd he hpre hmax
    rw [List.pairwise_cons] at hs
    rw [List.map_cons, List.nodup_cons] at hnd
    by_cases hx : (x.1.isPrefixOf out || x.1.isPrefixOf ar) = true
    · rw [List.find?_cons_of_pos (p := fun y : List Char × String => y.1.isPrefixOf out || y.1.isPrefixOf ar) _ hx]
      have hxo : x.1 <+: out := (prefix_cond_iff har).mp hx
      have hlen1 : x.1.length ≤ e.1.length := hmax x (List.mem_cons_self x xs) hxo
      rcases List.mem_cons.mp he with heq | hetail
      · rw [heq]
      · have hlen2 : e.1.length ≤ x.1.length := hs.1 e hetail
        have hfst : x.1 = e.1 := by
          have h1 := List.prefix_iff_eq_take.mp hxo
          have h2 := List.prefix_iff_eq_take.mp hpre
          rw [h1, h2, Nat.le_antisymm hlen1 hlen2]
        exact ((hfst ▸ hnd.1) (List.mem_map_of_mem Prod.fst hetail)).elim
    · rw [List.find?_cons_of_neg (p := fun y : List Char × String => y.1.isPrefixOf out || y.1.isPrefixOf ar) _ hx]
      have hne : e ≠ x := by
        intro hcontra
        exact hx (hcontra ▸ (prefix_cond_iff har).mpr hpre)
      have hetail : e ∈ xs := (List.mem_cons.mp he).resolve_left hne
      exact ih hs.2 hnd.2 hetail hpre
        (fun e₂ h₂ he₂ => hmax e₂ (List.mem_cons_of_mem x h₂) he₂)

theorem get_county_spec (p k : List Char) (v : String)
    (hkv : (k, v) ∈ POSTCODE_TO_COUNTY)
    (hm : k <+: outwardOf p ∨ k <+: areaOf p)
    (hmax : ∀ k₂ v₂, (k₂, v₂) ∈ POSTCODE_TO_COUNTY →
      (k₂ <+: outwardOf p ∨ k₂ <+: areaOf p) → k₂.length ≤ k.length) :
    get_county_from_postcode p = v := by
  have har : areaOf p <+: outwardOf p := List.takeWhile_prefix _
  have hko : k <+: outwardOf p := by
    rcases hm with h | h
    · exact h
    · exact h.trans har
  have hperm : SORTED_ENTRIES.Perm POSTCODE_TO_COUNTY :=
    List.perm_insertionSort lenGe POSTCODE_TO_COUNTY
  have hp : p ≠ [] := by
    intro hnil
    rw [hnil] at hko
    have houtnil : outwardOf ([] : List Char) = [] := rfl
    rw [houtnil] at hko
    have hk0 : k = [] := List.prefix_nil.mp hko
    have hkeys : ∀ e ∈ POSTCODE_TO_COUNTY, e.1 ≠ ([] : List Char) := by decide
    exact hkeys (k, v) hkv hk0
  have hsorted : SORTED_ENTRIES.Pairwise lenGe :=
    List.sorted_insertionSort lenGe POSTCODE_TO_COUNTY
  have hnd0 : (POSTCODE_TO_COUNTY.map Prod.fst).Nodup := by decide
  have hnd : (SORTED_ENTRIES.map Prod.fst).Nodup :=
    ((hperm.map Prod.fst).nodup_iff).mpr hnd0
  have hmem : (k, v) ∈ SORTED_ENTRIES := hperm.mem_iff.mpr hkv
  have hmax2 : ∀ e₂ ∈ SORTED_ENTRIES, e₂.1 <+: outwardOf p →
      e₂.1.length ≤ k.length := by
    intro e₂ h₂ hp₂
    exact hmax e₂.1 e₂.2 (hperm.mem_iff.mp h₂) (Or.inl hp₂)
  have hfind := find?_longest har SORTED_ENTRIES (k, v) hsorted hnd hmem hko hmax2
  simp only [get_county_from_postcode, if_neg hp]
  rw [hfind]

theorem get_county_mem_regions (p : List Char) :
    get_county_from_postcode p ∈ REGIONS := by
  unfold get_county_from_postcode
  split_ifs with hp
  · decide
  · cases hfind : SORTED_ENTRIES.find?
        (fun e => e.1.isPrefixOf (outwardOf p) || e.1.isPrefixOf (areaOf p)) with
    | some e =>
      have h1 : e ∈ SORTED_ENTRIES := List.mem_of_find?_eq_some hfind
      have h2 : e ∈ POSTCODE_TO_COUNTY :=
        (List.perm_insertionSort lenGe POSTCODE_TO_COUNTY).mem_iff.mp h1
      show e.2 ∈ REGIONS
      simpa [REGIONS] using List.mem_map_of_mem Prod.snd h2
    | none =>
      show ("Greater London" : String) ∈ REGIONS
      decide

theorem classify_lookup_isSome (o : Except String String) :
    (WASTE_SIZE_MULTIPLIERS.lookup (classify_waste_size_with_gemini o)).isSome :=
  lookup_some_of_mem_sizes (classify_mem o)

theorem runPipelineResult_of_upload_ok (cd : List CountyRow) (pc : List Char)
    {o : StageOracles} {url : String} (hu : o.upload = .ok url) :
    ∃ m, WASTE_SIZE_MULTIPLIERS.lookup (classify_waste_size_with_gemini o.classify)
        = some m ∧
      runPipelineResult cd o pc = .ok
        (impactResponse cd (get_county_from_postcode pc)
          (classify_waste_size_with_gemini o.classify) m url o,
         get_county_from_postcode pc,
         classify_waste_size_with_gemini o.classify) := by
  obtain ⟨m, hm⟩ := Option.isSome_iff_exists.mp (classify_lookup_isSome o.classify)
  refine ⟨m, hm, ?_⟩
  simp only [runPipelineResult]
  rw [calculate_impact_ok hm hu]

theorem runPipelineResult_of_upload_error (cd : List CountyRow) (pc : List Char)
    {o : StageOracles} {e : String} (hu : o.upload = .error e) :
    runPipelineResult cd o pc = .error e := by
  obtain ⟨m, hm⟩ := Option.isSome_iff_exists.mp (classify_lookup_isSome o.classify)
  simp only [runPipelineResult]
  rw [calculate_impact_upload_error hm hu]

theorem finalRecord_of_run_ok {cd : List CountyRow} {o : StageOracles}
    {pc : List Char} {res : FlytippingImpactResponse} {county ws : String}
    (hr : runPipelineResult cd o pc = .ok (res, county, ws)) :
    finalRecord cd o pc =
      { status := .completed, result := some res, error := none,
        metadata := some (county, ws) } := by
  unfold finalRecord processWrites
  rw [hr]
  rfl

theorem finalRecord_of_run_error {cd : List CountyRow} {o : StageOracles}
    {pc : List Char} {e : String}
    (hr : runPipelineResult cd o pc = .error e) :
    finalRecord cd o pc =
      { status := .failed, result := none, error := some e, metadata := none } := by
  unfold finalRecord processWrites
  rw [hr]
  rfl

/-!
## Claim theorems
-/

/-- C1, counterexample: with the coefficient table loaded and every external
stage failing (severity classifier, material classifier, narrative generator,
contact lookup, image store), the task for postcode "SW1A 1AA" terminates
with status `failed`, not `completed`: the image-upload stage re-raises its
exception, which aborts the pipeline. -/
theorem c1_counterexample :
    (finalRecord T_LONDON ALL_FAIL PC_SW).status = .failed ∧
    ¬ (finalRecord T_LONDON ALL_FAIL PC_SW).status = .completed := by
  have h : (finalRecord T_LONDON ALL_FAIL PC_SW).status = .failed := rfl
  exact ⟨h, by rw [h]; decide⟩

/-- C1 (amended): the image upload is the one external stage that gates
completion.  If the upload succeeds, the task reaches `completed` with a
fully populated result (result present, summary and image reference
non-null) no matter how the other four external stages behave; if the upload
fails, the task reaches `failed` with the upload error recorded and no
result. -/
theorem c1_upload_gates_completion :
    ∀ (cd : List CountyRow) (o : StageOracles) (pc : List Char),
      (∀ url, o.upload = .ok url →
        (finalRecord cd o pc).status = .completed ∧
        (finalRecord cd o pc).error = none ∧
        (finalRecord cd o pc).result.isSome ∧
        (finalRecord cd o pc).result.map (fun r => r.summary.isSome) = some true ∧
        (finalRecord cd o pc).result.map (fun r => r.imageUrl) = some (some url)) ∧
      (∀ e, o.upload = .error e →
        (finalRecord cd o pc).status = .failed ∧
        (finalRecord cd o pc).error = some e ∧
        (finalRecord cd o pc).result = none) := by
  intro cd o pc
  constructor
  · intro url hu
    obtain ⟨m, hm, hr⟩ := runPipelineResult_of_upload_ok cd pc hu
    rw [finalRecord_of_run_ok hr]
    exact ⟨rfl, rfl, rfl, rfl, rfl⟩
  · intro e hu
    rw [finalRecord_of_run_error (runPipelineResult_of_upload_error cd pc hu)]
    exact ⟨rfl, rfl, rfl⟩

/-- Witness for C1 (amended) at a concrete instance: all stages fail except
the upload, and the task still completes with a populated result. -/
theorem c1_upload_gates_completion_witness :
    (finalRecord T_LONDON ALL_FAIL_BUT_UPLOAD PC_SW).status = .completed ∧
    (finalRecord T_LONDON ALL_FAIL_BUT_UPLOAD PC_SW).error = none ∧
    (finalRecord T_LONDON ALL_FAIL_BUT_UPLOAD PC_SW).result.isSome :=
  ⟨((c1_upload_gates_completion T_LONDON ALL_FAIL_BUT_UPLOAD PC_SW).1
      ("https://img.example/up.jpg") rfl).1,
   ((c1_upload_gates_completion T_LONDON ALL_FAIL_BUT_UPLOAD PC_SW).1
      ("https://img.example/up.jpg") rfl).2.1,
   ((c1_upload_gates_completion T_LONDON ALL_FAIL_BUT_UPLOAD PC_SW).1
      ("https://img.example/up.jpg") rfl).2.2.1⟩

/-- C2, counterexample: with a region coefficient `qualityOfLifeImpact = -2`
the calculator returns `deprivationIndex = -1`, which is outside `[0, 10]`:
the code only clamps the deprivation index from above. -/
theorem c2_counterexample :
    (calculate_impact T_NEG ("Testshire") ("small_bag") OK_ORACLES).toOption.isSome ∧
    (respOf T_NEG ("Testshire") ("small_bag") OK_ORACLES).deprivationIndex = -1 ∧
    ¬ ((0 : ℚ) ≤ (-1 : ℚ)) := by
  refine ⟨rfl, ?_, by norm_num⟩
  show round1 (min 10 (5 + (countyCoeffs T_NEG ("Testshire")).2.2 * 3)) = -1
  have hq : (countyCoeffs T_NEG ("Testshire")).2.2 = -2 := rfl
  rw [hq]
  have hmin : min (10 : ℚ) (5 + (-2) * 3) = 5 + (-2) * 3 :=
    min_eq_right (by norm_num)
  rw [hmin, round1_eq_of_mul_ten ((by norm_num : ((5 + (-2) * 3 : ℚ)) * 10 = ((-10 : ℤ) : ℚ)))]
  norm_num

/-- C2 (amended): for every coefficient table, region and severity bucket,
whenever the calculator succeeds its output satisfies
`deprivationIndex ≤ 10` and `recyclingRatePct ≥ 10`; the lower bound
`deprivationIndex ≥ 0` does not hold for quality-of-life coefficients below
`-5/3`. -/
theorem c2_clamps :
    ∀ (cd : List CountyRow) (county ws : String) (o : StageOracles)
      (r : FlytippingImpactResponse),
      calculate_impact cd county ws o = .ok r →
      r.deprivationIndex ≤ 10 ∧ 10 ≤ r.environmentalImpact.recyclingRate := by
  intro cd county ws o r h
  obtain ⟨m, url, hl, hu, he⟩ := calculate_impact_ok_inv h
  subst he
  constructor
  · show round1 (min 10 (5 + (countyCoeffs cd county).2.2 * 3)) ≤ 10
    have h1 : (min 10 (5 + (countyCoeffs cd county).2.2 * 3) : ℚ) ≤ ((10 : ℤ) : ℚ) := by
      push_cast
      exact min_le_left _ _
    simpa using round1_le_intCast h1
  · show 10 ≤ round1 (max 10 (65 - (countyCoeffs cd county).2.2 * 50))
    have h1 : (((10 : ℤ) : ℚ)) ≤ max 10 (65 - (countyCoeffs cd county).2.2 * 50) := by
      push_cast
      exact le_max_left _ _
    simpa using intCast_le_round1 h1

/-- Witness for C2 (amended) at a concrete instance. -/
theorem c2_clamps_witness :
    (respOf T_LONDON ("Greater London") ("small_bag") OK_ORACLES).deprivationIndex ≤ 10 ∧
    10 ≤ (respOf T_LONDON ("Greater London") ("small_bag")
      OK_ORACLES).environmentalImpact.recyclingRate :=
  c2_clamps T_LONDON ("Greater London") ("small_bag") OK_ORACLES _ (by rfl)

/-- C3: the numeric impact metrics are a pure function of the coefficient
table snapshot, the region and the severity bucket: two successful
calculator calls with identical `(table, region, bucket)` agree on every
numeric output field, even when every other external-stage outcome differs
between the two calls. -/
theorem c3_numeric_determinism :
    ∀ (cd : List CountyRow) (county ws : String) (o₁ o₂ : StageOracles)
      (r₁ r₂ : FlytippingImpactResponse),
      calculate_impact cd county ws o₁ = .ok r₁ →
      calculate_impact cd county ws o₂ = .ok r₂ →
      r₁.crimeChange = r₂.crimeChange ∧
      r₁.deprivationIndex = r₂.deprivationIndex ∧
      r₁.housePriceImpact = r₂.housePriceImpact ∧
      r₁.environmentalImpact.co2Emissions = r₂.environmentalImpact.co2Emissions ∧
      r₁.environmentalImpact.wasteVolume = r₂.environmentalImpact.wasteVolume ∧
      r₁.environmentalImpact.recyclingRate = r₂.environmentalImpact.recyclingRate := by
  intro cd county ws o₁ o₂ r₁ r₂ h₁ h₂
  obtain ⟨m₁, u₁, hl₁, hu₁, he₁⟩ := calculate_impact_ok_inv h₁
  obtain ⟨m₂, u₂, hl₂, hu₂, he₂⟩ := calculate_impact_ok_inv h₂
  rw [hl₁] at hl₂
  have hm : m₁ = m₂ := Option.some.inj hl₂
  subst hm
  subst he₁
  subst he₂
  exact ⟨rfl, rfl, rfl, rfl, rfl, rfl⟩

/-- Witness for C3 at a concrete instance: two runs with entirely different
stage payloads agree on the numeric metrics. -/
theorem c3_numeric_determinism_witness :
    (respOf T_LONDON ("Greater London") ("small_bag") OK_ORACLES).crimeChange =
      (respOf T_LONDON ("Greater London") ("small_bag") OK_ORACLES2).crimeChange ∧
    (respOf T_LONDON ("Greater London") ("small_bag") OK_ORACLES).deprivationIndex =
      (respOf T_LONDON ("Greater London") ("small_bag") OK_ORACLES2).deprivationIndex ∧
    (respOf T_LONDON ("Greater London") ("small_bag") OK_ORACLES).housePriceImpact =
      (respOf T_LONDON ("Greater London") ("small_bag") OK_ORACLES2).housePriceImpact ∧
    (respOf T_LONDON ("Greater London") ("small_bag")
        OK_ORACLES).environmentalImpact.co2Emissions =
      (respOf T_LONDON ("Greater London") ("small_bag")
        OK_ORACLES2).environmentalImpact.co2Emissions ∧
    (respOf T_LONDON ("Greater London") ("small_bag")
        OK_ORACLES).environmentalImpact.wasteVolume =
      (respOf T_LONDON ("Greater London") ("small_bag")
        OK_ORACLES2).environmentalImpact.wasteVolume ∧
    (respOf T_LONDON ("Greater London") ("small_bag")
        OK_ORACLES).environmentalImpact.recyclingRate =
      (respOf T_LONDON ("Greater London") ("small_bag")
        OK_ORACLES2).environmentalImpact.recyclingRate :=
  c3_numeric_determinism T_LONDON ("Greater London") ("small_bag")
    OK_ORACLES OK_ORACLES2 _ _ (by rfl) (by rfl)

/-- C4: the resolver implements the longest-prefix rule: whenever a dict key
matches the outward code or the area letters, the resolver returns the value
of a matching key of maximal length. -/
theorem c4_longest_prefix_rule :
    ∀ (p k : List Char) (v : String),
      (k, v) ∈ POSTCODE_TO_COUNTY →
      (k <+: outwardOf p ∨ k <+: areaOf p) →
      (∀ k₂ v₂, (k₂, v₂) ∈ POSTCODE_TO_COUNTY →
        (k₂ <+: outwardOf p ∨ k₂ <+: areaOf p) → k₂.length ≤ k.length) →
      get_county_from_postcode p = v :=
  fun p k v h1 h2 h3 => get_county_spec p k v h1 h2 h3

/-- Witness for C4: "SW1A 1AA" matches the key "SW", which is of maximal
length among the matching keys, and resolves to its region. -/
theorem c4_longest_prefix_rule_witness :
    get_county_from_postcode PC_SW = "Greater London" := by
  have hall : ∀ e ∈ POSTCODE_TO_COUNTY, e.1.length ≤ 2 := by decide
  exact c4_longest_prefix_rule PC_SW (("SW").toList) ("Greater London")
    (by decide) (Or.inl (by decide))
    (fun k₂ v₂ hmem _ => hall (k₂, v₂) hmem)

/-- C5: the resolver is total and always lands in the fixed region set, for
every input; "SW1A 1AA" resolves to the region of prefix "SW" (Greater
London) and the empty string resolves to the default region (Greater
London). -/
theorem c5_resolver_total :
    (∀ p : List Char, get_county_from_postcode p ∈ REGIONS) ∧
    get_county_from_postcode (("SW1A 1AA").toList) = "Greater London" ∧
    get_county_from_postcode ([] : List Char) = "Greater London" :=
  ⟨get_county_mem_regions, rfl, rfl⟩

/-- C6: for every loaded region row and severity bucket the calculator
computes `co2 = co2_base * m`, `wasteVolumeTonnes = 0.05 * m`,
`crimeChangePct = qol * 15 * m` and `housePriceImpactPct = -qol * 4.5 * m`,
rounded (1 decimal, 2 for volume); and for bucket "large_bag" with
`qualityOfLifeImpact = 0.4` the outputs are `30.0`, `-9.0`, deprivation
`6.2` and recycling `45.0`. -/
theorem c6_formulas_and_scenario :
    (∀ (cd : List CountyRow) (county : String) (row : CountyRow) (ws : String)
      (m : ℚ) (o : StageOracles) (url : String) (r : FlytippingImpactResponse),
      cd.find? (fun x => x.county == county) = some row →
      WASTE_SIZE_MULTIPLIERS.lookup ws = some m →
      o.upload = .ok url →
      calculate_impact cd county ws o = .ok r →
      r.environmentalImpact.co2Emissions = round1 (row.co2_emission_kg * m) ∧
      r.environmentalImpact.wasteVolume = round2 ((1/20 : ℚ) * m) ∧
      r.crimeChange = round1 (row.quality_of_life_impact * 15 * m) ∧
      r.housePriceImpact = round1 (-row.quality_of_life_impact * (9/2) * m)) ∧
    ((calculate_impact T_SCN ("Devon") ("large_bag") OK_ORACLES).toOption.isSome ∧
     (respOf T_SCN ("Devon") ("large_bag") OK_ORACLES).crimeChange = 30 ∧
     (respOf T_SCN ("Devon") ("large_bag") OK_ORACLES).housePriceImpact = -9 ∧
     (respOf T_SCN ("Devon") ("large_bag") OK_ORACLES).deprivationIndex = 31/5 ∧
     (respOf T_SCN ("Devon") ("large_bag")
       OK_ORACLES).environmentalImpact.recyclingRate = 45) := by
  constructor
  · intro cd county row ws m o url r hfind hl hu h
    rw [calculate_impact_ok hl hu] at h
    have he : r = impactResponse cd county ws m url o := (Except.ok.injEq _ _ ▸ h).symm
    subst he
    have hc : countyCoeffs cd county =
        (row.air_quality_impact, row.co2_emission_kg, row.quality_of_life_impact) := by
      unfold countyCoeffs
      rw [hfind]
    refine ⟨?_, rfl, ?_, ?_⟩
    · show round1 ((countyCoeffs cd county).2.1 * m) = round1 (row.co2_emission_kg * m)
      rw [hc]
    · show round1 ((countyCoeffs cd county).2.2 * 15 * m) =
        round1 (row.quality_of_life_impact * 15 * m)
      rw [hc]
    · show round1 (-(countyCoeffs cd county).2.2 * (9/2) * m) =
        round1 (-row.quality_of_life_impact * (9/2) * m)
      rw [hc]
  · have hq : (countyCoeffs T_SCN ("Devon")).2.2 = 2/5 := rfl
    refine ⟨rfl, ?_, ?_, ?_, ?_⟩
    · show round1 ((countyCoeffs T_SCN ("Devon")).2.2 * 15 * 5) = 30
      rw [hq,
        round1_eq_of_mul_ten ((by norm_num : ((2/5 : ℚ) * 15 * 5) * 10 = ((300 : ℤ) : ℚ)))]
      norm_num
    · show round1 (-(countyCoeffs T_SCN ("Devon")).2.2 * (9/2) * 5) = -9
      rw [hq,
        round1_eq_of_mul_ten ((by norm_num : ((-(2/5 : ℚ)) * (9/2) * 5) * 10 = ((-90 : ℤ) : ℚ)))]
      norm_num
    · show round1 (min 10 (5 + (countyCoeffs T_SCN ("Devon")).2.2 * 3)) = 31/5
      rw [hq]
      have hmin : min (10 : ℚ) (5 + (2/5) * 3) = 5 + (2/5) * 3 :=
        min_eq_right (by norm_num)
      rw [hmin,
        round1_eq_of_mul_ten ((by norm_num : ((5 + (2/5 : ℚ) * 3)) * 10 = ((62 : ℤ) : ℚ)))]
      norm_num
    · show round1 (max 10 (65 - (countyCoeffs T_SCN ("Devon")).2.2 * 50)) = 45
      rw [hq]
      have hmax : max (10 : ℚ) (65 - (2/5) * 50) = 65 - (2/5) * 50 :=
        max_eq_right (by norm_num)
      rw [hmax,
        round1_eq_of_mul_ten ((by norm_num : ((65 - (2/5 : ℚ) * 50)) * 10 = ((450 : ℤ) : ℚ)))]
      norm_num

/-- Witness for C6 at the concrete scenario table. -/
theorem c6_formulas_witness :
    (respOf T_SCN ("Devon") ("large_bag")
        OK_ORACLES).environmentalImpact.co2Emissions = round1 ((10 : ℚ) * 5) ∧
    (respOf T_SCN ("Devon") ("large_bag")
        OK_ORACLES).environmentalImpact.wasteVolume = round2 ((1/20 : ℚ) * 5) ∧
    (respOf T_SCN ("Devon") ("large_bag") OK_ORACLES).crimeChange =
      round1 ((2/5 : ℚ) * 15 * 5) ∧
    (respOf T_SCN ("Devon") ("large_bag") OK_ORACLES).housePriceImpact =
      round1 (-(2/5 : ℚ) * (9/2) * 5) :=
  c6_formulas_and_scenario.1 T_SCN ("Devon") ⟨"Devon", 1, 10, 2/5⟩ ("large_bag")
    5 OK_ORACLES ("https://img.example/1.jpg") _ (by rfl) (by rfl) rfl (by rfl)

/-- C7: the task status never regresses along the write trace (rank
pending < processing < terminal is monotone), and in every state a reader
can observe whose status is terminal, the result is populated exactly when
the status is `completed` and the error exactly when it is `failed`. -/
theorem c7_lifecycle_monotonic :
    ∀ (cd : List CountyRow) (o : StageOracles) (pc : List Char),
      List.Pairwise (fun a b => statusRank a.status ≤ statusRank b.status)
        (fineTrace cd o pc) ∧
      (∀ r ∈ observableStates cd o pc,
        (r.status = .completed ∨ r.status = .failed) →
        ((r.result.isSome ↔ r.status = .completed) ∧
         (r.error.isSome ↔ r.status = .failed))) := by
  intro cd o pc
  constructor
  · unfold fineTrace processWrites
    cases hr : runPipelineResult cd o pc with
    | ok t =>
      obtain ⟨res, county, ws⟩ := t
      simp [stateTrace, setStatus, setResult, setMetadata, initRecord,
        statusRank, List.pairwise_cons]
    | error e =>
      simp [stateTrace, setStatus, setError, initRecord, statusRank,
        List.pairwise_cons]
  · intro r hrmem hterm
    rcases List.mem_cons.mp hrmem with hinit | htail
    · subst hinit
      rcases hterm with h | h
      · simp [initRecord] at h
      · simp [initRecord] at h
    · have hfin : r = finalRecord cd o pc := List.mem_singleton.mp htail
      subst hfin
      cases hr : runPipelineResult cd o pc with
      | ok t =>
        obtain ⟨res, county, ws⟩ := t
        rw [finalRecord_of_run_ok hr]
        simp
      | error e =>
        rw [finalRecord_of_run_error hr]
        simp

/-- Witness for C7 at a concrete instance. -/
theorem c7_lifecycle_monotonic_witness :
    ((finalRecord T_LONDON OK_ORACLES PC_SW).result.isSome ↔
      (finalRecord T_LONDON OK_ORACLES PC_SW).status = .completed) ∧
    ((finalRecord T_LONDON OK_ORACLES PC_SW).error.isSome ↔
      (finalRecord T_LONDON OK_ORACLES PC_SW).status = .failed) :=
  (c7_lifecycle_monotonic T_LONDON OK_ORACLES PC_SW).2
    (finalRecord T_LONDON OK_ORACLES PC_SW)
    (List.Mem.tail _ (List.Mem.head _)) (Or.inl (by rfl))

/-- C8: on a raised exception the severity classifier returns the fixed
default bucket "medium_bag"; on output outside the closed label set it first
recovers by substring-matching the cleaned output against the label set and
falls back to "medium_bag" when no label matches. -/
theorem c8_severity_fallback :
    (∀ e, classify_waste_size_with_gemini (.error e) = "medium_bag") ∧
    (∀ t : String, String.mk (pyLower (pyStrip t.toList)) ∉ VALID_SIZES →
      classify_waste_size_with_gemini (.ok t) =
        ((VALID_SIZES.find?
          (fun s => containsSeq s.toList (pyLower (pyStrip t.toList)))).getD
          ("medium_bag"))) := by
  constructor
  · intro e
    rfl
  · intro t h
    simp only [classify_waste_size_with_gemini]
    rw [if_neg h]
    cases hf : VALID_SIZES.find?
        (fun s => containsSeq s.toList (pyLower (pyStrip t.toList))) with
    | some s => rfl
    | none => rfl

/-- Witness for C8: an unparseable classifier output recovered by substring
matching, and a raised exception mapped to the default bucket. -/
theorem c8_severity_fallback_witness :
    classify_waste_size_with_gemini (.error ("boom")) = "medium_bag" ∧
    classify_waste_size_with_gemini (.ok ("It is a medium_bag I think")) =
      ((VALID_SIZES.find? (fun s => containsSeq s.toList
        (pyLower (pyStrip ("It is a medium_bag I think").toList)))).getD
        ("medium_bag")) :=
  ⟨c8_severity_fallback.1 ("boom"),
   c8_severity_fallback.2 ("It is a medium_bag I think") (by decide)⟩

/-- C10: for a waste-size argument outside the multiplier-table key set the
impact calculation raises a KeyError at the multiplier lookup (before any
external call of the function), and the severity classifier returns a member
of that key set on every path, so the precondition always holds in the
pipeline. -/
theorem c10_keyerror_and_totality :
    (∀ (cd : List CountyRow) (county ws : String) (o : StageOracles),
      ws ∉ WASTE_SIZE_MULTIPLIERS.map Prod.fst →
      calculate_impact cd county ws o = .error ("KeyError: " ++ ws)) ∧
    (∀ o : Except String String,
      classify_waste_size_with_gemini o ∈ WASTE_SIZE_MULTIPLIERS.map Prod.fst) := by
  constructor
  · intro cd county ws o h
    exact calculate_impact_keyError (lookup_none_of_not_mem h)
  · intro o
    exact classify_mem o

/-- Witness for C10: the string "lorry" is not a multiplier key and produces
the KeyError; a failed classifier call still lands in the key set. -/
theorem c10_keyerror_and_totality_witness :
    calculate_impact T_LONDON ("Greater London") ("lorry") OK_ORACLES =
      .error ("KeyError: lorry") ∧
    classify_waste_size_with_gemini (.error ("api down")) ∈
      WASTE_SIZE_MULTIPLIERS.map Prod.fst :=
  ⟨c10_keyerror_and_totality.1 T_LONDON ("Greater London") ("lorry") OK_ORACLES
      (by decide),
   c10_keyerror_and_totality.2 (.error ("api down"))⟩

/-- C9: because the dict literal repeats the keys "NE", "LE" and "PO" with a
later value, every postcode whose outward code starts with "NE" resolves to
"Northumberland" (never "Tyne and Wear"), every "LE" postcode to "Rutland"
(never "Leicestershire") and every "PO" postcode to "Isle of Wight" (never
"West Sussex"): the last-written entry for each duplicated key wins. -/
theorem c9_duplicate_keys_last_write_wins :
    ∀ p : List Char,
      ((("NE").toList <+: outwardOf p →
        get_county_from_postcode p = "Northumberland") ∧
       (("LE").toList <+: outwardOf p →
        get_county_from_postcode p = "Rutland") ∧
       (("PO").toList <+: outwardOf p →
        get_county_from_postcode p = "Isle of Wight")) := by
  intro p
  have hall : ∀ e ∈ POSTCODE_TO_COUNTY, e.1.length ≤ 2 := by decide
  refine ⟨fun h => ?_, fun h => ?_, fun h => ?_⟩
  · exact get_county_spec p (("NE").toList) ("Northumberland") (by decide)
      (Or.inl h) (fun k₂ v₂ hmem _ => hall (k₂, v₂) hmem)
  · exact get_county_spec p (("LE").toList) ("Rutland") (by decide)
      (Or.inl h) (fun k₂ v₂ hmem _ => hall (k₂, v₂) hmem)
  · exact get_county_spec p (("PO").toList) ("Isle of Wight") (by decide)
      (Or.inl h) (fun k₂ v₂ hmem _ => hall (k₂, v₂) hmem)

/-- Witness for C9 at three concrete postcodes. -/
theorem c9_duplicate_keys_witness :
    get_county_from_postcode (("NE1 4ST").toList) = "Northumberland" ∧
    get_county_from_postcode (("LE1 7RH").toList) = "Rutland" ∧
    get_county_from_postcode (("PO30 1AB").toList) = "Isle of Wight" :=
  ⟨(c9_duplicate_keys_last_write_wins (("NE1 4ST").toList)).1 (by decide),
   (c9_duplicate_keys_last_write_wins (("LE1 7RH").toList)).2.1 (by decide),
   (c9_duplicate_keys_last_write_wins (("PO30 1AB").toList)).2.2 (by decide)⟩

end FlyTip
